import Mathlib

/-!
# Verification of the GAIA benchmark agent core

Shallow embedding of the task-solving orchestration code of the repository
(`tools.py`, `gaia_agent.py`, `agent_gemini.py`, `ollama_model.py`,
`submit_gaia_benchmark.py`, `submit_gemini_gaia.py`) and proofs about it.

External effects (wall-clock time, the network, the agent runtime) are made
explicit parameters: an HTTP fetch becomes an `Except`-valued argument, the
reasoning runtime's outcome becomes an `Except`-valued oracle, and clock
readings become rational-number arguments.
-/

namespace Tools

/-- The process-wide task-context dictionary `current_task_context` of
`tools.py` / `gaia_agent.py`.  `none` models the empty dict `{}` (no context
set); `some ctx` models a non-empty dict whose relevant keys are the three
optional fields (`none` for an absent key). -/
structure TaskContext where
  task_id : Option String
  question : Option String
  file_name : Option String
deriving Repr, DecidableEq

/-- `tools.py` lines 16-26: `get_task_context`.  Renders the active context,
or the "no context" string when the store is empty.  Missing keys fall back
to the defaults of `dict.get`. -/
def get_task_context (store : Option TaskContext) : String :=
  match store with
  | none => "No task context available"
  | some ctx =>
    "Task ID: " ++ ctx.task_id.getD "Unknown" ++ "\n" ++
    "Question: " ++ ctx.question.getD "No question" ++ "\n" ++
    "File: " ++ ctx.file_name.getD "" ++ "\n"

/-- The value of `current_task_context.get('file_name')` in `tools.py`:
`none` both when the store is the empty dict and when the key is absent. -/
def context_file_name (store : Option TaskContext) : Option String :=
  store.bind TaskContext.file_name

/-- The check `file_name.lower().endswith(('.png', '.jpg', '.jpeg', '.gif',
'.bmp'))` of `tools.py` line 59, carried out on the character list (Python
`str.lower` / `endswith` act per character). -/
def is_image_name (name : String) : Bool :=
  [".png", ".jpg", ".jpeg", ".gif", ".bmp"].any
    (fun ext => ext.toList <:+ name.toList.map Char.toLower)

/-- An HTTP response as seen by `requests.get`: a status code and raw body
bytes. -/
structure HttpResponse where
  status_code : Nat
  content : List Nat
deriving Repr, DecidableEq

/-- Observable outcome of one `download_task_file` invocation: the returned
string, the file written to disk (name and bytes, `none` when nothing is
written), and the number of network requests issued. -/
structure DownloadOutcome where
  result : String
  saved : Option (String × List Nat)
  requests : Nat
deriving Repr, DecidableEq

/-- `tools.py` lines 28-67: `download_task_file`.  The network is passed in
as `fetch`: `Except.ok` is the `requests.get` response, `Except.error e`
models an exception with message `e` raised inside the `try` block (the
`open`/`write` of the 200 branch is assumed to succeed; a failure there is
also covered by the `Except.error` case).  The Python falsy test
`not current_task_context.get('file_name')` fires on an empty store, an
absent key, and the empty string.  The `task_id` argument only feeds the
request URL, which the `fetch` oracle abstracts. -/
def download_task_file (store : Option TaskContext) (task_id : String)
    (fetch : Except String HttpResponse) : DownloadOutcome :=
  match context_file_name store with
  | none => ⟨"No file associated with this task", none, 0⟩
  | some file_name =>
    if file_name = "" then ⟨"No file associated with this task", none, 0⟩
    else
      match fetch with
      | .error e => ⟨"Error downloading file: " ++ e, none, 1⟩
      | .ok response =>
        if response.status_code = 200 then
          if is_image_name file_name then
            ⟨"Downloaded image file: " ++ file_name ++ ". Use analyze_image() to process it.",
             some (file_name, response.content), 1⟩
          else
            ⟨"Downloaded file: " ++ file_name ++ " (" ++ toString response.content.length ++ " bytes)",
             some (file_name, response.content), 1⟩
        else
          ⟨"Failed to download file: HTTP " ++ toString response.status_code, none, 1⟩

/-- `tools.py` lines 69-78: `reverse_text`; Python `text[::-1]` reverses the
sequence of characters.  The `print` is logging only; the function touches
no other state. -/
def reverse_text (text : String) : String :=
  ⟨text.data.reverse⟩

/-- Observable outcome of one invocation of the closure built by
`create_rate_limited_search` (`tools.py` lines 157-190): the returned
string, the value of the `last_search_time` cell after the invocation, and
the wall-clock time at which the underlying `search_tool(query)` call was
dispatched. -/
structure SearchCall where
  result : String
  new_last : ℚ
  dispatch : ℚ
deriving Repr, DecidableEq

/-- `tools.py` lines 167-188: one invocation of `rate_limited_search`.
`last` is the current `last_search_time[0]`, `now` is the `time.time()`
reading at entry, `outcome` is what the underlying `search_tool` call does
(`Except.ok` = its return value, `Except.error e` = it raises with message
`e`), and `dur ≥ 0` is the wall-clock duration of that underlying call.
When `now - last < min_delay`, the code sleeps for the remaining delta, so
the underlying call is dispatched at `last + min_delay`; otherwise it is
dispatched at `now`.  On normal return, `last_search_time[0] = time.time()`
stores the completion time `dispatch + dur`; on exception the handler
returns the failure string without touching `last_search_time`. -/
def rate_limited_search (min_delay last now : ℚ)
    (outcome : Except String String) (dur : ℚ) : SearchCall :=
  let dispatch := if now - last < min_delay then last + min_delay else now
  match outcome with
  | .ok r => ⟨r, dispatch + dur, dispatch⟩
  | .error e => ⟨"Search failed: " ++ e, last, dispatch⟩

end Tools

namespace GaiaAgent

/-- `gaia_agent.py` lines 15-25: its own copy of `get_task_context`; it
differs from the `tools.py` copy in the file line's default ("No file")
and in lacking the trailing newline. -/
def get_task_context (store : Option Tools.TaskContext) : String :=
  match store with
  | none => "No task context available"
  | some ctx =>
    "Task ID: " ++ ctx.task_id.getD "Unknown" ++ "\n" ++
    "Question: " ++ ctx.question.getD "No question" ++ "\n" ++
    "File: " ++ ctx.file_name.getD "No file"

/-- The try/except boundary of `gaia_agent.py` lines 176-185
(`GAIAAgent.solve_task`).  The reasoning runtime's run is an oracle:
`Except.ok r` is `str(self.agent.run(smart_prompt))` and `Except.error e`
is an exception raised during the run, with message `str(e)`.  On success
the stringified result is returned verbatim; the handler returns
`f"Error solving task: {e}"`, so no exception escapes (the embedding is a
total function into `String`).  The context publication and prompt
composition preceding the `try` are pure dictionary reads and string
templating and cannot raise. -/
def solve_task (run_outcome : Except String String) : String :=
  match run_outcome with
  | .ok result => result
  | .error e => "Error solving task: " ++ e

end GaiaAgent

namespace AgentGemini

/-- The try/except boundary of `agent_gemini.py` lines 194-202
(`Agent.solve_task`), with `run_outcome` as in `GaiaAgent.solve_task`.
Its handler returns `f"Error: {str(e)}"`. -/
def solve_task (run_outcome : Except String String) : String :=
  match run_outcome with
  | .ok result => result
  | .error e => "Error: " ++ e

end AgentGemini

namespace Benchmark

/-- One fetched question as the benchmark runner sees it
(`question_data.get("task_id")`, `.get("question")`,
`.get("file_name", "")`): each key may be absent. -/
structure Question where
  task_id : Option String
  question : Option String
  file_name : Option String
deriving Repr, DecidableEq

/-- One entry of the `results` log of `run_agent_on_all_questions`
(`submit_gaia_benchmark.py` lines 109-116 / 132-139 and identically
`submit_gemini_gaia.py`).  The wall-clock `duration` field is omitted: no
claim concerns it and it is not derivable in a pure embedding. -/
structure RunResult where
  task_id : String
  question : String
  result : Option String
  success : Bool
  error : Option String
deriving Repr, DecidableEq

/-- One entry of the `answers_payload` sequence
(`submit_gaia_benchmark.py` lines 103-106 / 126-129). -/
structure Answer where
  task_id : String
  submitted_answer : String
deriving Repr, DecidableEq

/-- Observable outcome of the whole loop: the `results` log, the
`answers_payload`, and the number of `agent.solve_task` invocations made
(to witness that skipped tasks never invoke the agent). -/
structure RunOutput where
  results : List RunResult
  answers_payload : List Answer
  calls : Nat
deriving Repr, DecidableEq

/-- The skip test `if not task_id or question_text is None` of
`submit_gaia_benchmark.py` line 78 / `submit_gemini_gaia.py` line 73:
Python falsiness of `task_id` (absent key or empty string) or an absent
`question` key. -/
def shouldSkip (q : Question) : Bool :=
  match q.task_id, q.question with
  | none, _ => true
  | some t, qt => if t = "" then true else qt.isNone

/-- The `results.append(...)` record built for an attempted question:
success path for `Except.ok`, exception path for `Except.error`. -/
def mkRunResult (q : Question) (outcome : Except String String) : RunResult :=
  match outcome with
  | .ok r => ⟨q.task_id.getD "", q.question.getD "", some r, true, none⟩
  | .error e => ⟨q.task_id.getD "", q.question.getD "", none, false, some e⟩

/-- The `answers_payload.append(...)` record built for an attempted
question: `str(result)` on success (`result` is already a string), the
`ERROR: `-prefixed message on exception. -/
def mkAnswer (q : Question) (outcome : Except String String) : Answer :=
  match outcome with
  | .ok r => ⟨q.task_id.getD "", r⟩
  | .error e => ⟨q.task_id.getD "", "ERROR: " ++ e⟩

/-- `submit_gaia_benchmark.py` lines 64-144 and (identical loop logic)
`submit_gemini_gaia.py` lines 59-139: `run_agent_on_all_questions`.  The
agent is an oracle `solve`: `solve k` is the outcome of the `k`-th
`agent.solve_task` call (`Except.ok` = the returned answer string,
`Except.error e` = an exception with message `str(e)`).  `k` threads the
invocation counter; printing is logging only and is not modelled. -/
def run_agent_on_all_questions (solve : Nat → Except String String) :
    List Question → Nat → RunOutput
  | [], k => ⟨[], [], k⟩
  | q :: rest, k =>
    if shouldSkip q then run_agent_on_all_questions solve rest k
    else
      let out := run_agent_on_all_questions solve rest (k + 1)
      ⟨mkRunResult q (solve k) :: out.results,
       mkAnswer q (solve k) :: out.answers_payload,
       out.calls⟩

/-- The per-position correspondence claimed between a RunResult and its
answers-payload entry: same task id, and the submitted answer is the
success result, respectively the `ERROR: `-prefixed message of the recorded
error. -/
def answerMatches (r : RunResult) (a : Answer) : Prop :=
  a.task_id = r.task_id ∧
  ((r.success = true ∧ r.result = some a.submitted_answer) ∨
   (r.success = false ∧ ∃ e, r.error = some e ∧
      a.submitted_answer = "ERROR: " ++ e))

end Benchmark

namespace OllamaModel

/-- Helper for `word_count`: counts the maximal whitespace-separated words
of a character list; the flag records whether the previous character was a
non-whitespace word character. -/
def countWordsAux (inWord : Bool) : List Char → Nat
  | [] => 0
  | c :: rest =>
    if c.isWhitespace then countWordsAux false rest
    else (if inWord then 0 else 1) + countWordsAux true rest

/-- `ollama_model.py` line 84:
`word_count = len(content.split()) if content else 0`.  Python `str.split()`
with no separator splits on runs of whitespace and drops empty pieces, so
its length is the number of maximal whitespace-separated words. -/
def word_count (content : String) : Nat :=
  if content = "" then 0 else countWordsAux false content.toList

/-- `ollama_model.py` lines 45-73: the `TokenUsage` object; its constructor
duplicates the two counts under the OpenAI, Anthropic, and generic naming
conventions. -/
structure TokenUsage where
  prompt_tokens : Nat
  completion_tokens : Nat
  total_tokens : Nat
  input_tokens : Nat
  output_tokens : Nat
  input : Nat
  output : Nat
  total : Nat
deriving Repr, DecidableEq

/-- `TokenUsage.__init__`: all eight fields from the two arguments. -/
def TokenUsage.make (p c : Nat) : TokenUsage :=
  ⟨p, c, p + c, p, c, p, c, p + c⟩

/-- `ollama_model.py` lines 76-102: the `StringWithContent` value.  In
Python it is a `str` subclass, so the value used as plain text is `text`
(the underlying string); the metadata attributes attached in `__new__` that
the claims concern are `content`, `token_usage` and `usage`.  The remaining
constant attributes (`model`, `choices`, `created`, `finish_reason`, ...)
and the process-salted `id` hash are not modelled. -/
structure StringWithContent where
  text : String
  content : String
  token_usage : TokenUsage
  usage : TokenUsage
deriving Repr, DecidableEq

/-- `StringWithContent.__new__`: the estimate
`prompt_tokens = max(10, word_count // 2)`,
`completion_tokens = word_count`, with `token_usage` and `usage` the same
object. -/
def stringWithContent (content : String) : StringWithContent :=
  let wc := word_count content
  let p := max 10 (wc / 2)
  ⟨content, content, TokenUsage.make p wc, TokenUsage.make p wc⟩

end OllamaModel

/-- Claim C7: `get_task_context` with an empty context store returns the
"no context" string (both copies); the embedded functions are total, so no
exception can escape. -/
theorem get_task_context_no_context :
    Tools.get_task_context none = "No task context available" ∧
    GaiaAgent.get_task_context none = "No task context available" :=
  ⟨rfl, rfl⟩

/-- Claim C8: `reverse_text` is an involution: reversing twice gives back the
original string.  (Purity is reflected by the embedding: the function reads
and writes no program state; the `print` is logging only.) -/
theorem reverse_text_involution (s : String) :
    Tools.reverse_text (Tools.reverse_text s) = s := by
  cases s with
  | mk data => simp [Tools.reverse_text]

/-- Claim C6: when the active context carries no filename (no context set,
key absent, or empty string), `download_task_file` returns the explicit
no-file string, writes nothing, and issues zero network requests. -/
theorem download_task_file_no_file (store : Option Tools.TaskContext)
    (task_id : String) (fetch : Except String Tools.HttpResponse)
    (h : Tools.context_file_name store = none ∨
         Tools.context_file_name store = some "") :
    Tools.download_task_file store task_id fetch =
      ⟨"No file associated with this task", none, 0⟩ := by
  rcases h with h | h <;> simp [Tools.download_task_file, h]

/-- Witness for C6 at a concrete input: the empty context store. -/
theorem download_task_file_no_file_witness :
    (Tools.context_file_name none = none ∨
       Tools.context_file_name none = some "") ∧
    Tools.download_task_file none "task-1" (.ok ⟨200, [1, 2, 3]⟩) =
      ⟨"No file associated with this task", none, 0⟩ :=
  ⟨Or.inl rfl,
   download_task_file_no_file none "task-1" (.ok ⟨200, [1, 2, 3]⟩) (Or.inl rfl)⟩

/-- Counterexample to C5 as stated: with filename `chart.png` in the context
and an HTTP 200 response of 5 bytes, the tool does save the bytes under the
filename, but the returned success string is the image-file message, which
does not report the downloaded byte count (it contains neither the word
"bytes" nor the digit 5). -/
theorem download_task_file_image_no_byte_count :
    (Tools.download_task_file (some ⟨some "t1", some "q", some "chart.png"⟩)
        "t1" (.ok ⟨200, [9, 9, 9, 9, 9]⟩)).result =
      "Downloaded image file: chart.png. Use analyze_image() to process it." ∧
    (Tools.download_task_file (some ⟨some "t1", some "q", some "chart.png"⟩)
        "t1" (.ok ⟨200, [9, 9, 9, 9, 9]⟩)).saved =
      some ("chart.png", [9, 9, 9, 9, 9]) ∧
    ¬ ("bytes".toList <:+:
        (Tools.download_task_file (some ⟨some "t1", some "q", some "chart.png"⟩)
          "t1" (.ok ⟨200, [9, 9, 9, 9, 9]⟩)).result.toList) ∧
    ¬ ('5' ∈
        (Tools.download_task_file (some ⟨some "t1", some "q", some "chart.png"⟩)
          "t1" (.ok ⟨200, [9, 9, 9, 9, 9]⟩)).result.toList) := by
  refine ⟨rfl, rfl, by decide, by decide⟩

/-- Claim C5, amended: with a filename in the active context, an HTTP 200
response makes the tool save the body bytes under that filename and return a
success string — reporting the byte count for non-image filenames, while for
image filenames it instead names the file and points to `analyze_image()`
without a byte count; a non-200 status yields the HTTP failure string and an
exception the error string, in both cases writing nothing. -/
theorem download_task_file_spec (store : Option Tools.TaskContext)
    (task_id file_name : String) (response : Tools.HttpResponse) (e : String)
    (hfile : Tools.context_file_name store = some file_name)
    (hne : file_name ≠ "") :
    (response.status_code = 200 →
      Tools.download_task_file store task_id (.ok response) =
        ⟨if Tools.is_image_name file_name then
            "Downloaded image file: " ++ file_name ++ ". Use analyze_image() to process it."
          else
            "Downloaded file: " ++ file_name ++ " (" ++
              toString response.content.length ++ " bytes)",
          some (file_name, response.content), 1⟩) ∧
    (response.status_code ≠ 200 →
      Tools.download_task_file store task_id (.ok response) =
        ⟨"Failed to download file: HTTP " ++ toString response.status_code,
          none, 1⟩) ∧
    Tools.download_task_file store task_id (.error e) =
      ⟨"Error downloading file: " ++ e, none, 1⟩ := by
  refine ⟨fun h200 => ?_, fun hn => ?_, ?_⟩ <;>
    simp [Tools.download_task_file, hfile, hne, *] <;>
    split <;> simp_all

/-- Witness for C5 (amended) at a concrete input: filename `data.csv`, a 200
response with a 3-byte body, and an exception message `down`. -/
theorem download_task_file_spec_witness :
    Tools.context_file_name (some ⟨some "t2", some "q", some "data.csv"⟩) =
        some "data.csv" ∧
    "data.csv" ≠ "" ∧
    Tools.download_task_file (some ⟨some "t2", some "q", some "data.csv"⟩)
        "t2" (.ok ⟨200, [7, 8, 9]⟩) =
      ⟨"Downloaded file: data.csv (3 bytes)", some ("data.csv", [7, 8, 9]), 1⟩ :=
  ⟨rfl, by decide, by
    have h := (download_task_file_spec
      (some ⟨some "t2", some "q", some "data.csv"⟩) "t2" "data.csv"
      ⟨200, [7, 8, 9]⟩ "down" rfl (by decide)).1 rfl
    simpa using h⟩

/-- Counterexample to C2 as stated: start with `last_search_time = 0`.  A
call entered at time 10 (so no sleep) whose underlying search raises after 2
seconds completes at time 12, yet leaves the recorded timestamp at 0 — the
timestamp is not recorded when the call raises.  A following call entered at
time 12.5 (only 0.5 s after that completion) is then dispatched immediately
at 12.5, before `min_delay = 3` has elapsed since the first call's
completion at 12. -/
theorem rate_limited_search_exception_no_timestamp :
    (Tools.rate_limited_search 3 0 10 (.error "boom") 2).new_last = 0 ∧
    (Tools.rate_limited_search 3 0 10 (.error "boom") 2).dispatch + 2 = 12 ∧
    (Tools.rate_limited_search 3 0 10 (.error "boom") 2).new_last ≠ 12 ∧
    (Tools.rate_limited_search 3
        (Tools.rate_limited_search 3 0 10 (.error "boom") 2).new_last
        (25 / 2) (.ok "r") 1).dispatch < 12 + 3 := by
  have h10 : ¬ ((10 : ℚ) - 0 < 3) := by norm_num
  have h25 : ¬ ((25 : ℚ) / 2 - 0 < 3) := by norm_num
  refine ⟨?_, ?_, ?_, ?_⟩ <;>
    simp [Tools.rate_limited_search, h10, h25] <;> norm_num

/-- Claim C2, amended: the wrapper records the completion timestamp only
when the underlying search returns normally (then `new_last` is the
completion time `dispatch + dur` and the result is returned verbatim); when
the underlying search raises, the wrapper returns the failure string and
leaves the timestamp unchanged.  Consequently, after an invocation that
returned normally, the next invocation — whatever its entry time and
outcome — is not dispatched until at least `min_delay` after that previous
call's completion. -/
theorem rate_limited_search_spec (min_delay last now dur now₂ dur₂ : ℚ)
    (r e : String) (outcome₂ : Except String String) :
    (Tools.rate_limited_search min_delay last now (.ok r) dur).new_last =
      (Tools.rate_limited_search min_delay last now (.ok r) dur).dispatch + dur ∧
    (Tools.rate_limited_search min_delay last now (.ok r) dur).result = r ∧
    (Tools.rate_limited_search min_delay last now (.error e) dur).new_last = last ∧
    (Tools.rate_limited_search min_delay last now (.error e) dur).result =
      "Search failed: " ++ e ∧
    (Tools.rate_limited_search min_delay
        (Tools.rate_limited_search min_delay last now (.ok r) dur).new_last
        now₂ outcome₂ dur₂).dispatch ≥
      (Tools.rate_limited_search min_delay last now (.ok r) dur).new_last +
        min_delay := by
  refine ⟨rfl, rfl, rfl, rfl, ?_⟩
  set c := (Tools.rate_limited_search min_delay last now (.ok r) dur).new_last with hc
  have : (Tools.rate_limited_search min_delay c now₂ outcome₂ dur₂).dispatch =
      if now₂ - c < min_delay then c + min_delay else now₂ := by
    cases outcome₂ <;> rfl
  rw [this]
  split
  next => exact le_refl _
  next h => linarith [not_lt.mp h]

/-- Counterexample to C1 as stated: when the reasoning runtime raises with
message `boom` inside `GAIAAgent.solve_task`, the returned string is
"Error solving task: boom", which is not prefixed with the `Error:` marker
(its sixth character is a space, not a colon). -/
theorem gaia_solve_task_marker_missing :
    GaiaAgent.solve_task (.error "boom") = "Error solving task: boom" ∧
    ¬ ("Error:".toList <+: (GaiaAgent.solve_task (.error "boom")).toList) := by
  exact ⟨rfl, by decide⟩

/-- Claim C1, amended: when `agent.run` raises, both `solve_task`
implementations catch the exception and return a string describing the
error instead of propagating (the embedded boundary is a total function);
the Gemini agent's string is `Error: ` followed by the message — carrying
the `Error:` marker — while the GAIA agent's string is
`Error solving task: ` followed by the message, which begins with `Error`
but not with the `Error:` marker.  On success both return the stringified
run result verbatim. -/
theorem solve_task_error_boundary (e r : String) :
    AgentGemini.solve_task (.ok r) = r ∧
    GaiaAgent.solve_task (.ok r) = r ∧
    AgentGemini.solve_task (.error e) = "Error: " ++ e ∧
    GaiaAgent.solve_task (.error e) = "Error solving task: " ++ e ∧
    "Error:".toList <+: (AgentGemini.solve_task (.error e)).toList ∧
    "Error".toList <+: (GaiaAgent.solve_task (.error e)).toList :=
  ⟨rfl, rfl, rfl, rfl, ⟨' ' :: e.toList, rfl⟩,
   ⟨' ' :: 's' :: 'o' :: 'l' :: 'v' :: 'i' :: 'n' :: 'g' :: ' ' :: 't' :: 'a'
      :: 's' :: 'k' :: ':' :: ' ' :: e.toList, rfl⟩⟩

/-- The two records built for one attempted question always correspond. -/
theorem benchmark_mk_answer_matches (q : Benchmark.Question)
    (o : Except String String) :
    Benchmark.answerMatches (Benchmark.mkRunResult q o)
      (Benchmark.mkAnswer q o) := by
  cases o with
  | ok r => exact ⟨rfl, Or.inl ⟨rfl, rfl⟩⟩
  | error e => exact ⟨rfl, Or.inr ⟨rfl, e, rfl, rfl⟩⟩

/-- Unfolding of the benchmark loop on a skipped question. -/
theorem benchmark_run_agent_skip (solve : Nat → Except String String)
    (q : Benchmark.Question) (rest : List Benchmark.Question) (k : Nat)
    (h : Benchmark.shouldSkip q = true) :
    Benchmark.run_agent_on_all_questions solve (q :: rest) k =
      Benchmark.run_agent_on_all_questions solve rest k := by
  simp [Benchmark.run_agent_on_all_questions, h]

/-- Unfolding of the benchmark loop on an attempted question. -/
theorem benchmark_run_agent_cons (solve : Nat → Except String String)
    (q : Benchmark.Question) (rest : List Benchmark.Question) (k : Nat)
    (h : Benchmark.shouldSkip q = false) :
    Benchmark.run_agent_on_all_questions solve (q :: rest) k =
      ⟨Benchmark.mkRunResult q (solve k) ::
         (Benchmark.run_agent_on_all_questions solve rest (k + 1)).results,
       Benchmark.mkAnswer q (solve k) ::
         (Benchmark.run_agent_on_all_questions solve rest (k + 1)).answers_payload,
       (Benchmark.run_agent_on_all_questions solve rest (k + 1)).calls⟩ := by
  simp [Benchmark.run_agent_on_all_questions, h]

/-- Claim C3: each attempted (non-skipped) task appends exactly one entry to
the results log and one to the answers payload, in input order: results and
answers have pointwise-corresponding entries (same task id; submitted
answer = success result, or the `ERROR: `-prefixed message), equal lengths,
and their task-id sequences both equal the task ids of the non-skipped input
questions in order.  Every `submitted_answer` is a string by construction of
the embedding. -/
theorem run_agent_results_answers_aligned
    (solve : Nat → Except String String) (qs : List Benchmark.Question)
    (k : Nat) :
    List.Forall₂ Benchmark.answerMatches
      (Benchmark.run_agent_on_all_questions solve qs k).results
      (Benchmark.run_agent_on_all_questions solve qs k).answers_payload ∧
    (Benchmark.run_agent_on_all_questions solve qs k).results.length =
      (Benchmark.run_agent_on_all_questions solve qs k).answers_payload.length ∧
    (Benchmark.run_agent_on_all_questions solve qs k).results.map
        Benchmark.RunResult.task_id =
      (qs.filter (fun q => !Benchmark.shouldSkip q)).map
        (fun q => q.task_id.getD "") ∧
    (Benchmark.run_agent_on_all_questions solve qs k).answers_payload.map
        Benchmark.Answer.task_id =
      (qs.filter (fun q => !Benchmark.shouldSkip q)).map
        (fun q => q.task_id.getD "") := by
  induction qs generalizing k with
  | nil => simp [Benchmark.run_agent_on_all_questions]
  | cons q rest ih =>
    by_cases h : Benchmark.shouldSkip q
    · obtain ⟨ih1, ih2, ih3, ih4⟩ := ih k
      rw [benchmark_run_agent_skip solve q rest k h]
      refine ⟨ih1, ih2, ?_, ?_⟩ <;> simp [List.filter_cons, h, ih3, ih4]
    · obtain ⟨ih1, ih2, ih3, ih4⟩ := ih (k + 1)
      rw [benchmark_run_agent_cons solve q rest k (by simpa using h)]
      refine ⟨List.Forall₂.cons (benchmark_mk_answer_matches q (solve k)) ih1,
        by simpa using ih2, ?_, ?_⟩ <;>
        · simp [List.filter_cons, h, ih3, ih4]
          cases hsolve : solve k <;>
            simp [Benchmark.mkRunResult, Benchmark.mkAnswer]

/-- Claim C4: a fetched task whose `task_id` key or `question` key is absent
is skipped: the loop's entire output — results log, answers payload and the
agent-invocation counter — is the same as if the task were not in the list,
so no RunResult and no answers entry is produced and `agent.solve_task` is
not invoked for it. -/
theorem run_agent_skips_missing_fields (q : Benchmark.Question)
    (solve : Nat → Except String String) (rest : List Benchmark.Question)
    (k : Nat) (h : q.task_id = none ∨ q.question = none) :
    Benchmark.run_agent_on_all_questions solve (q :: rest) k =
      Benchmark.run_agent_on_all_questions solve rest k := by
  have hskip : Benchmark.shouldSkip q = true := by
    rcases h with h | h
    · simp [Benchmark.shouldSkip, h]
    · cases htid : q.task_id with
      | none => simp [Benchmark.shouldSkip, htid]
      | some t => simp [Benchmark.shouldSkip, htid, h]
  exact benchmark_run_agent_skip solve q rest k hskip

/-- Witness for C4 at a concrete input: a question with an absent task id is
dropped from the run. -/
theorem run_agent_skips_missing_fields_witness :
    ((⟨none, some "What is 2+2?", none⟩ : Benchmark.Question).task_id = none ∨
       (⟨none, some "What is 2+2?", none⟩ : Benchmark.Question).question = none) ∧
    Benchmark.run_agent_on_all_questions (fun _ => .ok "4")
        [⟨none, some "What is 2+2?", none⟩] 0 =
      Benchmark.run_agent_on_all_questions (fun _ => .ok "4") [] 0 :=
  ⟨Or.inl rfl,
   run_agent_skips_missing_fields ⟨none, some "What is 2+2?", none⟩
     (fun _ => .ok "4") [] 0 (Or.inl rfl)⟩

/-- Claim C10: the skip test fires exactly when `task_id` is absent or the
empty string, or `question` is absent; hence a task with a non-empty
`task_id` and `question` equal to the empty string is attempted — the agent
is invoked and exactly one RunResult and one answers-payload entry are
prepended for it. -/
theorem run_agent_attempts_empty_question (t : String) (fn : Option String)
    (solve : Nat → Except String String) (rest : List Benchmark.Question)
    (k : Nat) (h : t ≠ "") :
    Benchmark.shouldSkip ⟨some t, some "", fn⟩ = false ∧
    Benchmark.run_agent_on_all_questions solve
        (⟨some t, some "", fn⟩ :: rest) k =
      ⟨Benchmark.mkRunResult ⟨some t, some "", fn⟩ (solve k) ::
         (Benchmark.run_agent_on_all_questions solve rest (k + 1)).results,
       Benchmark.mkAnswer ⟨some t, some "", fn⟩ (solve k) ::
         (Benchmark.run_agent_on_all_questions solve rest (k + 1)).answers_payload,
       (Benchmark.run_agent_on_all_questions solve rest (k + 1)).calls⟩ ∧
    (∀ q : Benchmark.Question,
       Benchmark.shouldSkip q = true ↔
         q.task_id = none ∨ q.task_id = some "" ∨ q.question = none) := by
  have hskip : Benchmark.shouldSkip ⟨some t, some "", fn⟩ = false := by
    simp [Benchmark.shouldSkip, h]
  refine ⟨hskip, benchmark_run_agent_cons solve _ rest k hskip, ?_⟩
  intro q
  cases q with
  | mk tid qt fn' =>
    cases tid with
    | none => simp [Benchmark.shouldSkip]
    | some t' =>
      by_cases ht : t' = "" <;> cases qt <;> simp [Benchmark.shouldSkip, ht]

/-- Witness for C10 at a concrete input: task id `t1`, empty question. -/
theorem run_agent_attempts_empty_question_witness :
    ("t1" : String) ≠ "" ∧
    Benchmark.shouldSkip ⟨some "t1", some "", none⟩ = false ∧
    Benchmark.run_agent_on_all_questions (fun _ => Except.ok "ans")
        [⟨some "t1", some "", none⟩] 0 =
      ⟨Benchmark.mkRunResult ⟨some "t1", some "", none⟩ (Except.ok "ans") ::
         (Benchmark.run_agent_on_all_questions (fun _ => Except.ok "ans") [] 1).results,
       Benchmark.mkAnswer ⟨some "t1", some "", none⟩ (Except.ok "ans") ::
         (Benchmark.run_agent_on_all_questions (fun _ => Except.ok "ans") [] 1).answers_payload,
       (Benchmark.run_agent_on_all_questions (fun _ => Except.ok "ans") [] 1).calls⟩ ∧
    (Benchmark.shouldSkip ⟨some "", some "x", none⟩ = true ↔
       (⟨some "", some "x", none⟩ : Benchmark.Question).task_id = none ∨
       (⟨some "", some "x", none⟩ : Benchmark.Question).task_id = some "" ∨
       (⟨some "", some "x", none⟩ : Benchmark.Question).question = none) :=
  ⟨by decide,
   (run_agent_attempts_empty_question "t1" none (fun _ => Except.ok "ans") [] 0
      (by decide)).1,
   (run_agent_attempts_empty_question "t1" none (fun _ => Except.ok "ans") [] 0
      (by decide)).2.1,
   (run_agent_attempts_empty_question "t1" none (fun _ => Except.ok "ans") [] 0
      (by decide)).2.2 ⟨some "", some "x", none⟩⟩

/-- Claim C9: the model adapter's returned value, used as plain text, is
exactly the response content, and its token-usage metadata is a
deterministic function of the content's word count, duplicated under the
three naming conventions with `total_tokens = prompt_tokens +
completion_tokens`: two contents with the same word count get identical
token-usage objects. -/
theorem string_with_content_spec (content : String) :
    (OllamaModel.stringWithContent content).text = content ∧
    (OllamaModel.stringWithContent content).content = content ∧
    (OllamaModel.stringWithContent content).usage =
      (OllamaModel.stringWithContent content).token_usage ∧
    (OllamaModel.stringWithContent content).token_usage =
      OllamaModel.TokenUsage.make
        (max 10 (OllamaModel.word_count content / 2))
        (OllamaModel.word_count content) ∧
    (OllamaModel.stringWithContent content).token_usage.total_tokens =
      (OllamaModel.stringWithContent content).token_usage.prompt_tokens +
        (OllamaModel.stringWithContent content).token_usage.completion_tokens ∧
    (OllamaModel.stringWithContent content).token_usage.input_tokens =
      (OllamaModel.stringWithContent content).token_usage.prompt_tokens ∧
    (OllamaModel.stringWithContent content).token_usage.output_tokens =
      (OllamaModel.stringWithContent content).token_usage.completion_tokens ∧
    (OllamaModel.stringWithContent content).token_usage.input =
      (OllamaModel.stringWithContent content).token_usage.prompt_tokens ∧
    (OllamaModel.stringWithContent content).token_usage.output =
      (OllamaModel.stringWithContent content).token_usage.completion_tokens ∧
    (OllamaModel.stringWithContent content).token_usage.total =
      (OllamaModel.stringWithContent content).token_usage.total_tokens ∧
    ∀ c₂ : String, OllamaModel.word_count content = OllamaModel.word_count c₂ →
      (OllamaModel.stringWithContent content).token_usage =
        (OllamaModel.stringWithContent c₂).token_usage := by
  refine ⟨rfl, rfl, rfl, rfl, rfl, rfl, rfl, rfl, rfl, rfl, ?_⟩
  intro c₂ h
  simp [OllamaModel.stringWithContent, h]

/-- Witness for C9's determinism clause at concrete inputs: `"a b"` and
`"x  y"` both have two words and get the same token-usage object. -/
theorem string_with_content_spec_witness :
    OllamaModel.word_count "a b" = OllamaModel.word_count "x  y" ∧
    (OllamaModel.stringWithContent "a b").token_usage =
      (OllamaModel.stringWithContent "x  y").token_usage :=
  ⟨by decide,
   (string_with_content_spec "a b").2.2.2.2.2.2.2.2.2.2 "x  y" (by decide)⟩
